import Mathlib

/-!
Verification development for the rc-flex-store repository.

The embedding models:
- a JavaScript object as an insertion-ordered association list with unique
  keys; object spread `\x7b...base, ...patch\x7d` is `spreadMerge`;
- the `Repository` class (imported by `src/index.tsx` from `./store`, whose
  source file is not part of the snapshot) modelled from the specification;
- the store handle built by `create` (property descriptors, updater mixin);
- the Provider and Consumer render logic of `src/index.tsx`.

Watcher callbacks are identified by reference in the source; the embedding
identifies them by a natural-number id, and a notification is the list of
ids invoked, in invocation order.
-/

namespace RcFlexStore

/-- State values stored at object keys: integers suffice for the claims. -/
abbrev StoreState := List (String × Int)

/-- Write key `k` to value `v`: overwrite in place if present (JS keeps the
original key position on overwrite), otherwise append. -/
def setKey {α : Type} : List (String × α) → String → α → List (String × α)
  | [], k, v => [(k, v)]
  | (k0, v0) :: rest, k, v =>
      if k0 = k then (k, v) :: rest else (k0, v0) :: setKey rest k v

/-- Read key `k` (JS property access on a plain object). -/
def getKey {α : Type} : List (String × α) → String → Option α
  | [], _ => none
  | (k0, v0) :: rest, k => if k0 = k then some v0 else getKey rest k

/-- JS object spread: every key of `patch` written over `base`, left to
right, mirroring `\x7b ...base, ...patch \x7d`. -/
def spreadMerge {α : Type} (base patch : List (String × α)) : List (String × α) :=
  patch.foldl (fun acc kv => setKey acc kv.1 kv.2) base

/-- JS rest destructuring `const \x7b k, ...rest \x7d = o`: drop key `k`. -/
def removeKey {α : Type} (l : List (String × α)) (k : String) : List (String × α) :=
  l.filter (fun kv => kv.1 != k)

/-- A `setState` updater: either a replacement value or a function from the
current state to a partial state, where `none` is the null no-visual-change
sentinel. Modelled from the spec: the `StoreUpdater` type of the missing
`src/store` module. -/
inductive StoreUpdater : Type
  | value (v : StoreState)
  | fn (f : StoreState → Option StoreState)

/-- Evaluate an updater against the current state, yielding the partial
state to merge, or `none` for the no-op sentinel. -/
def applyUpdater (u : StoreUpdater) (s : StoreState) : Option StoreState :=
  match u with
  | .value v => some v
  | .fn f => f s

/-- Modelled from the spec: the `Repository` class of the missing
`src/store` module — a mutable state value plus an insertion-ordered
watcher registry with uniqueness by reference (watcher ids here). -/
structure Repository : Type where
  state : StoreState
  watchers : List Nat
deriving Repr, DecidableEq

/-- Modelled from the spec: `new Repository(initialState)`. -/
def createRepo (initialState : StoreState) : Repository :=
  { state := initialState, watchers := [] }

/-- Modelled from the spec: `subscribe(fn)` adds a watcher; subscribing the
same function twice must not duplicate invocation (set semantics). -/
def Repository.subscribe (r : Repository) (w : Nat) : Repository :=
  if w ∈ r.watchers then r else { r with watchers := r.watchers ++ [w] }

/-- Modelled from the spec: `unsubscribe(fn)` removes a watcher; no-op if
not found. -/
def Repository.unsubscribe (r : Repository) (w : Nat) : Repository :=
  { r with watchers := r.watchers.filter (fun x => x != w) }

/-- Modelled from the spec: `watch(fn)` — same registry as `subscribe`,
used internally by the provider. -/
def Repository.watch (r : Repository) (w : Nat) : Repository :=
  if w ∈ r.watchers then r else { r with watchers := r.watchers ++ [w] }

/-- Modelled from the spec: `unwatch(fn)` — same registry as
`unsubscribe`. -/
def Repository.unwatch (r : Repository) (w : Nat) : Repository :=
  { r with watchers := r.watchers.filter (fun x => x != w) }

/-- Modelled from the spec: `setState(updater, callback)` applies the
updater, merges a partial result into the current state, then invokes every
registered watcher in subscription order; when the updater yields the no-op
sentinel, nothing changes and no watcher is invoked. Returns the updated
repository and the list of watcher ids invoked, in invocation order. -/
def Repository.setState (r : Repository) (u : StoreUpdater) :
    Repository × List Nat :=
  match applyUpdater u r.state with
  | none => (r, [])
  | some part =>
      ({ state := spreadMerge r.state part, watchers := r.watchers }, r.watchers)

/-- One operation of a client session against the repository. -/
inductive Op : Type
  | subscribe (w : Nat)
  | unsubscribe (w : Nat)
  | setState (u : StoreUpdater)

/-- Apply one operation, returning the notification lists it produced
(one per `setState`). -/
def Repository.applyOp (r : Repository) : Op → Repository × List (List Nat)
  | .subscribe w => (r.subscribe w, [])
  | .unsubscribe w => (r.unsubscribe w, [])
  | .setState u =>
      let p := r.setState u
      (p.1, [p.2])

/-- Run a sequence of operations, collecting all notification lists in
order. -/
def Repository.runTrace (r : Repository) : List Op → Repository × List (List Nat)
  | [] => (r, [])
  | op :: ops =>
      let p := r.applyOp op
      let q := p.1.runTrace ops
      (q.1, p.2 ++ q.2)

/-- The repository after a sequence of operations. -/
def Repository.run (r : Repository) (ops : List Op) : Repository :=
  (r.runTrace ops).1

/-- The store handle a Consumer/Provider sees, identified by reference
(`id`) and carrying the repository state it currently reads. -/
structure UserStore : Type where
  id : Nat
  state : StoreState
deriving Repr, DecidableEq

/-- Prop values occurring in the claims. -/
inductive Value : Type
  | vint (n : Int)
  | vstr (s : String)
  | vstore (s : UserStore)
deriving Repr, DecidableEq

/-- A props object. -/
abbrev Props := List (String × Value)

/-- The context snapshot `\x7b store, mounted \x7d` of `src/index.tsx`. -/
structure ContextState : Type where
  store : UserStore
  mounted : Bool
deriving Repr, DecidableEq

/-- `MapStoreToProps` of `src/index.tsx`. -/
abbrev MapStoreToProps := UserStore → StoreState → Props → Props

/-- `defaultMapStoreToProps` of `src/index.tsx` line 45:
`(store) => (\x7b store \x7d)`. -/
def defaultMapStoreToProps : MapStoreToProps :=
  fun store _ _ => [("store", Value.vstore store)]

/-- A rendered element: the props handed to the wrapped component and the
`ref` wired from the extracted `forwardRef` prop. -/
structure Element : Type where
  props : Props
  ref : Option Value
deriving Repr, DecidableEq

/-- The prop-merging both render paths share:
`\x7b ...rest, ...mapStoreToProps(store, store.state, this.props) \x7d`
where `rest` is `this.props` without `forwardRef`. -/
def mergedProps (m : MapStoreToProps) (thisProps : Props) (store : UserStore) :
    Props :=
  spreadMerge (removeKey thisProps "forwardRef") (m store store.state thisProps)

/-- The message of the `ReferenceError` thrown by
`StoreConsumer.componentRender`. -/
def notMountedMsg (name : String) : String :=
  "Store <" ++ name ++ "> provider not yet mounted on the parent or current component"

/-- `StoreConsumer.componentRender` of `src/index.tsx` lines 218-228:
throws the named `ReferenceError` when the snapshot's mount flag is false,
otherwise renders the wrapped component with the merged props and the
extracted `forwardRef` as its ref. -/
def componentRender (name : String) (m : MapStoreToProps) (thisProps : Props)
    (data : ContextState) : Except String Element :=
  if data.mounted = false then
    Except.error (notMountedMsg name)
  else
    Except.ok
      { props := mergedProps m thisProps data.store
        ref := getKey thisProps "forwardRef" }

/-- The output of `StoreProvider.render`: the context value republished
downstream plus the wrapped child element. -/
structure ProviderOutput : Type where
  contextValue : ContextState
  child : Element
deriving Repr, DecidableEq

/-- `StoreProvider.render` of `src/index.tsx` lines 168-180. -/
def providerRender (m : MapStoreToProps) (thisProps : Props)
    (localState : ContextState) : ProviderOutput :=
  { contextValue := localState
    child :=
      { props := mergedProps m thisProps localState.store
        ref := getKey thisProps "forwardRef" } }

/-- The `state` property descriptor installed by `create`
(`src/index.tsx` line 56): an accessor with a getter delegating to the
repository and no setter. -/
structure StateDescriptor : Type where
  get : Repository → StoreState
  set : Option (Repository → StoreState → Repository)

/-- The descriptor `create` installs for `state`:
`\x7b get: () => repository.state, enumerable: true \x7d`. -/
def stateDescriptorOfCreate : StateDescriptor :=
  { get := Repository.state, set := none }

/-- JS assignment through a property descriptor: with no setter the target
is left unchanged (silently in sloppy mode; strict mode throws without
ever mutating). -/
def assignThroughDescriptor (p : StateDescriptor) (r : Repository)
    (v : StoreState) : Repository :=
  match p.set with
  | none => r
  | some f => f r v

/-- An own entry of the `updaters` mapping passed to `create`: a function
(identified by reference tag) or a non-function value. -/
inductive UpdaterEntry : Type
  | func (tag : Nat)
  | nonFunc (v : Value)
deriving Repr, DecidableEq

/-- An own property of the store handle built by `create`. -/
inductive HandleProp : Type
  | stateAccessor
  | setStateMethod
  | subscribeMethod
  | unsubscribeMethod
  | boundFunc (tag : Nat)
  | rawValue (v : Value)
deriving Repr, DecidableEq

/-- Whether a plain assignment to this existing own property succeeds:
the four properties installed by `Object.defineProperties` in `create` are
non-writable (`writable`/`set` omitted in the descriptors), while
properties created later by plain assignment are writable. -/
def HandleProp.writable : HandleProp → Bool
  | .stateAccessor => false
  | .setStateMethod => false
  | .subscribeMethod => false
  | .unsubscribeMethod => false
  | .boundFunc _ => true
  | .rawValue _ => true

/-- The own properties of the handle after
`Object.defineProperties(Object.create(null), ...)` in `create`
(`src/index.tsx` lines 55-60). -/
def baseHandleProps : List (String × HandleProp) :=
  [("state", HandleProp.stateAccessor),
   ("setState", HandleProp.setStateMethod),
   ("subscribe", HandleProp.subscribeMethod),
   ("unsubscribe", HandleProp.unsubscribeMethod)]

/-- What the mixin loop assigns for one entry:
`isFunction(updater) ? updater.bind(store) : updater`. -/
def mixinEntry : UpdaterEntry → HandleProp
  | .func t => HandleProp.boundFunc t
  | .nonFunc v => HandleProp.rawValue v

/-- JS plain assignment `o[k] = v` on an own-property table: creates a
writable property when absent, overwrites when the existing property is
writable, and leaves a non-writable property (or getter-only accessor)
unchanged — in strict mode the same assignment throws instead, and in
neither mode is the property replaced. -/
def assignOwn (l : List (String × HandleProp)) (k : String) (v : HandleProp) :
    List (String × HandleProp) :=
  match getKey l k with
  | some old => if old.writable then setKey l k v else l
  | none => setKey l k v

/-- The mixin loop of `create` (`src/index.tsx` lines 62-73): each own
entry of `updaters` is assigned onto the handle in iteration order. -/
def mixinUpdaters (handle : List (String × HandleProp))
    (updaters : List (String × UpdaterEntry)) : List (String × HandleProp) :=
  updaters.foldl (fun acc kv => assignOwn acc kv.1 (mixinEntry kv.2)) handle

/-- A mounted `StoreProvider` instance: its local UI state and how many
re-renders it has requested from the host framework. -/
structure ProviderInstance : Type where
  localState : ContextState
  renderRequests : Nat
deriving Repr, DecidableEq

/-- Modelled from the spec: the host framework's functional `setState` on a
component — applies the functional updater and schedules a re-render,
except that an updater yielding the no-visual-change sentinel (null) bails
out without touching the local state or requesting a render. -/
def hostSetState (c : ProviderInstance)
    (u : ContextState → Option ContextState) : ProviderInstance :=
  match u c.localState with
  | none => c
  | some s => { localState := s, renderRequests := c.renderRequests + 1 }

/-- `StoreProvider.storeUpdater` of `src/index.tsx` lines 119-121: the
watcher registered with the repository simply forwards the received updater
to the host `setState`. -/
def storeUpdater (c : ProviderInstance)
    (u : ContextState → Option ContextState) : ProviderInstance :=
  hostSetState c u

/-- The updater body of the C7 scenario:
`s => (\x7b count: s.count + 1 \x7d)`. -/
def incBody : StoreState → Option StoreState :=
  fun s => some [("count", (getKey s "count").getD 0 + 1)]

/-- The mixed-in `inc` after binding: `this` is the store handle, so the
call runs the repository's `setState` with the functional updater. -/
def inc (r : Repository) : Repository × List Nat :=
  r.setState (StoreUpdater.fn incBody)

/-- The C7 scenario store with one subscribed watcher (id 0):
`create(\x7b count: 0 \x7d, \x7b inc() \x7b ... \x7d \x7d)`. -/
def incScenarioRepo : Repository :=
  (createRepo [("count", 0)]).subscribe 0

/-- First `inc()` call of the scenario. -/
def incOnce : Repository × List Nat :=
  inc incScenarioRepo

/-- Second `inc()` call of the scenario. -/
def incTwice : Repository × List Nat :=
  inc incOnce.1

theorem getKey_setKey {α : Type} (l : List (String × α)) (k : String) (v : α) :
    getKey (setKey l k v) k = some v := by
  induction l with
  | nil => simp [setKey, getKey]
  | cons hd tl ih =>
      by_cases h : hd.1 = k
      · simp [setKey, getKey, h]
      · simp [setKey, getKey, h, ih]

theorem spreadMerge_append {α : Type} (base l1 l2 : List (String × α)) :
    spreadMerge base (l1 ++ l2) = spreadMerge (spreadMerge base l1) l2 := by
  simp [spreadMerge, List.foldl_append]

theorem getKey_spreadMerge_last {α : Type} (base l : List (String × α))
    (k : String) (v : α) :
    getKey (spreadMerge base (l ++ [(k, v)])) k = some v := by
  rw [spreadMerge_append]
  simp [spreadMerge, getKey_setKey]

/-- Subscribing never removes ids and keeps the registry duplicate-free. -/
theorem subscribe_nodup (r : Repository) (w : Nat)
    (h : r.watchers.Nodup) : (r.subscribe w).watchers.Nodup := by
  unfold Repository.subscribe
  by_cases hw : w ∈ r.watchers
  · simpa [hw] using h
  · simp only [hw, if_false]
    simpa using List.Nodup.append h (by simp) (by simpa using hw)

theorem unsubscribe_nodup (r : Repository) (w : Nat)
    (h : r.watchers.Nodup) : (r.unsubscribe w).watchers.Nodup := by
  unfold Repository.unsubscribe
  exact List.Nodup.filter _ h

theorem setState_watchers (r : Repository) (u : StoreUpdater) :
    (r.setState u).1.watchers = r.watchers := by
  unfold Repository.setState
  cases applyUpdater u r.state <;> rfl

/-- The registry stays duplicate-free along any session starting from a
duplicate-free registry. -/
theorem run_nodup (r : Repository) (ops : List Op)
    (h : r.watchers.Nodup) : (r.run ops).watchers.Nodup := by
  induction ops generalizing r with
  | nil => simpa [Repository.run, Repository.runTrace] using h
  | cons op ops ih =>
      simp only [Repository.run, Repository.runTrace]
      cases op with
      | subscribe w => exact ih _ (subscribe_nodup r w h)
      | unsubscribe w => exact ih _ (unsubscribe_nodup r w h)
      | setState u =>
          refine ih _ ?_
          simpa [Repository.applyOp, setState_watchers] using h

theorem getKey_setKey_ne {α : Type} (l : List (String × α)) (k2 k : String)
    (v : α) (h : k2 ≠ k) : getKey (setKey l k2 v) k = getKey l k := by
  induction l with
  | nil => simp [setKey, getKey, h]
  | cons hd tl ih =>
      by_cases h0 : hd.1 = k2
      · simp [setKey, getKey, h0, h]
      · simp only [setKey, h0, if_false]
        by_cases h1 : hd.1 = k
        · simp [getKey, h1]
        · simp [getKey, h1, ih]

theorem getKey_spreadMerge_single {α : Type} (base : List (String × α))
    (k : String) (v : α) :
    getKey (spreadMerge base [(k, v)]) k = some v := by
  simpa using getKey_spreadMerge_last base [] k v

theorem unsubscribe_not_mem (r : Repository) (w : Nat) :
    w ∉ (r.unsubscribe w).watchers := by
  simp [Repository.unsubscribe, List.mem_filter]

theorem unwatch_eq_unsubscribe (r : Repository) (w : Nat) :
    r.unwatch w = r.unsubscribe w := rfl

theorem unsubscribe_of_not_mem (r : Repository) (w : Nat)
    (h : w ∉ r.watchers) : r.unsubscribe w = r := by
  unfold Repository.unsubscribe
  have : r.watchers.filter (fun x => x != w) = r.watchers := by
    apply List.filter_eq_self.mpr
    intro x hx
    simp only [ne_eq, bne_iff_ne]
    exact fun hxw => h (hxw ▸ hx)
  simp [this]

theorem not_mem_subscribe (r : Repository) (w w2 : Nat)
    (hw : w ∉ r.watchers) (hne : w2 ≠ w) : w ∉ (r.subscribe w2).watchers := by
  unfold Repository.subscribe
  by_cases h : w2 ∈ r.watchers
  · simpa [h] using hw
  · simp only [h, if_false]
    simp only [List.mem_append, List.mem_singleton]
    rintro (h1 | h1)
    · exact hw h1
    · exact hne h1.symm

theorem not_mem_unsubscribe (r : Repository) (w w2 : Nat)
    (hw : w ∉ r.watchers) : w ∉ (r.unsubscribe w2).watchers := by
  unfold Repository.unsubscribe
  simp only [List.mem_filter]
  exact fun h => hw h.1

theorem setState_snd (r : Repository) (u : StoreUpdater) :
    (r.setState u).2 = [] ∨ (r.setState u).2 = r.watchers := by
  unfold Repository.setState
  cases applyUpdater u r.state
  · exact Or.inl rfl
  · exact Or.inr rfl

/-- A watcher absent from the registry is invoked by no notification of a
session that never re-subscribes it, and stays absent. -/
theorem runTrace_not_invoked (ops : List Op) (r : Repository) (w : Nat)
    (hw : w ∉ r.watchers) (hops : ∀ op ∈ ops, op ≠ Op.subscribe w) :
    (∀ ns ∈ (r.runTrace ops).2, w ∉ ns) ∧ w ∉ (r.run ops).watchers := by
  induction ops generalizing r with
  | nil =>
      constructor
      · intro ns hns
        simp [Repository.runTrace] at hns
      · simpa [Repository.run, Repository.runTrace] using hw
  | cons op ops ih =>
      have hops2 : ∀ o ∈ ops, o ≠ Op.subscribe w := fun o ho =>
        hops o (List.mem_cons_of_mem _ ho)
      cases op with
      | subscribe w2 =>
          have hne : w2 ≠ w := by
            intro h
            exact (hops (Op.subscribe w2) (List.mem_cons_self _ _)) (by rw [h])
          have hw2 := not_mem_subscribe r w w2 hw hne
          have h := ih (r.subscribe w2) hw2 hops2
          constructor
          · intro ns hns
            simp only [Repository.runTrace, Repository.applyOp,
              List.nil_append] at hns
            exact h.1 ns hns
          · simpa [Repository.run, Repository.runTrace, Repository.applyOp]
              using h.2
      | unsubscribe w2 =>
          have hw2 := not_mem_unsubscribe r w w2 hw
          have h := ih (r.unsubscribe w2) hw2 hops2
          constructor
          · intro ns hns
            simp only [Repository.runTrace, Repository.applyOp,
              List.nil_append] at hns
            exact h.1 ns hns
          · simpa [Repository.run, Repository.runTrace, Repository.applyOp]
              using h.2
      | setState u =>
          have hwss : w ∉ ((r.setState u).1).watchers := by
            rw [setState_watchers]; exact hw
          have h := ih (r.setState u).1 hwss hops2
          constructor
          · intro ns hns
            simp only [Repository.runTrace, Repository.applyOp,
              List.cons_append, List.nil_append, List.mem_cons] at hns
            rcases hns with hns | hns
            · subst hns
              rcases setState_snd r u with h2 | h2 <;> rw [h2]
              · simp
              · exact hw
            · exact h.1 ns hns
          · simpa [Repository.run, Repository.runTrace, Repository.applyOp]
              using h.2

theorem subscribe_idem (r : Repository) (w : Nat) :
    (r.subscribe w).subscribe w = r.subscribe w := by
  have h2 : w ∈ (r.subscribe w).watchers := by
    by_cases h : w ∈ r.watchers <;> simp [Repository.subscribe, h]
  conv_lhs => rw [Repository.subscribe]
  rw [if_pos h2]

theorem mixinEntry_writable (e : UpdaterEntry) :
    (mixinEntry e).writable = true := by
  cases e <;> rfl

theorem mixin_append (l : List (String × HandleProp))
    (us vs : List (String × UpdaterEntry)) :
    mixinUpdaters l (us ++ vs) = mixinUpdaters (mixinUpdaters l us) vs := by
  simp [mixinUpdaters, List.foldl_append]

theorem getKey_assignOwn_ne (l : List (String × HandleProp)) (k2 k : String)
    (v : HandleProp) (h : k2 ≠ k) :
    getKey (assignOwn l k2 v) k = getKey l k := by
  unfold assignOwn
  cases getKey l k2 with
  | none => exact getKey_setKey_ne l k2 k v h
  | some old =>
      by_cases hw : old.writable
      · simp only [hw, if_true]
        exact getKey_setKey_ne l k2 k v h
      · simp [hw]

/-- Every property the mixin loop ever writes at a key is writable, so the
key stays writable. -/
theorem mixin_writableAt (us : List (String × UpdaterEntry))
    (l : List (String × HandleProp)) (k : String)
    (hW : ∀ p, getKey l k = some p → p.writable = true) :
    ∀ p, getKey (mixinUpdaters l us) k = some p → p.writable = true := by
  induction us generalizing l with
  | nil => exact hW
  | cons kv us ih =>
      simp only [mixinUpdaters, List.foldl_cons]
      refine ih (assignOwn l kv.1 (mixinEntry kv.2)) ?_
      by_cases hk : kv.1 = k
      · subst hk
        unfold assignOwn
        cases hgk : getKey l kv.1 with
        | none =>
            intro p hp
            rw [getKey_setKey] at hp
            cases hp
            exact mixinEntry_writable kv.2
        | some old =>
            by_cases hw : old.writable
            · simp only [hw, if_true]
              intro p hp
              rw [getKey_setKey] at hp
              cases hp
              exact mixinEntry_writable kv.2
            · simp only [hw, if_false]
              exact hW
      · intro p hp
        rw [getKey_assignOwn_ne l kv.1 k (mixinEntry kv.2) hk] at hp
        exact hW p hp

/-- At a key whose every current occupant is writable, the last mixin
entry for that key determines the final property. -/
theorem mixin_last_writer (us : List (String × UpdaterEntry))
    (l : List (String × HandleProp)) (k : String) (e : UpdaterEntry)
    (hW : ∀ p, getKey l k = some p → p.writable = true) :
    getKey (mixinUpdaters l (us ++ [(k, e)])) k = some (mixinEntry e) := by
  rw [mixin_append]
  have hW2 := mixin_writableAt us l k hW
  show getKey (assignOwn (mixinUpdaters l us) k (mixinEntry e)) k
      = some (mixinEntry e)
  cases hgk : getKey (mixinUpdaters l us) k with
  | none =>
      simp only [assignOwn, hgk]
      exact getKey_setKey _ k _
  | some old =>
      simp only [assignOwn, hgk, hW2 old hgk, if_true]
      exact getKey_setKey _ k _

/-- A non-writable property survives the whole mixin loop untouched. -/
theorem getKey_mixin_not_writable (us : List (String × UpdaterEntry))
    (l : List (String × HandleProp)) (k : String) (p : HandleProp)
    (hp : getKey l k = some p) (hw : p.writable = false) :
    getKey (mixinUpdaters l us) k = some p := by
  induction us generalizing l with
  | nil => exact hp
  | cons kv us ih =>
      simp only [mixinUpdaters, List.foldl_cons]
      refine ih (assignOwn l kv.1 (mixinEntry kv.2)) ?_
      by_cases hk : kv.1 = k
      · subst hk
        simp only [assignOwn, hp, hw, Bool.false_eq_true, if_false]
      · rw [getKey_assignOwn_ne l kv.1 k (mixinEntry kv.2) hk]
        exact hp

/-- Every property `create` pre-installs on the handle is non-writable. -/
theorem baseHandleProps_not_writable (k : String) (p : HandleProp)
    (h : getKey baseHandleProps k = some p) : p.writable = false := by
  simp only [baseHandleProps, getKey] at h
  split_ifs at h <;> (cases h; rfl)

/-- C1: after any sequence of repository operations, a `setState` whose
updater does not yield the no-op sentinel invokes exactly the current
registry, which lists the watchers in subscription order, so each watcher
is invoked exactly once; and subscribing the same watcher a second time
leaves the registry unchanged, so it is never invoked more than once per
notification. -/
theorem setState_notifies_each_watcher_once (s0 : StoreState) (ops : List Op)
    (u : StoreUpdater)
    (hu : applyUpdater u ((createRepo s0).run ops).state ≠ none) :
    (((createRepo s0).run ops).setState u).2
        = ((createRepo s0).run ops).watchers ∧
    (∀ w ∈ ((createRepo s0).run ops).watchers,
      ((((createRepo s0).run ops).setState u).2).count w = 1) ∧
    (∀ r : Repository, ∀ w : Nat, (r.subscribe w).subscribe w = r.subscribe w) := by
  have hsnd : (((createRepo s0).run ops).setState u).2
      = ((createRepo s0).run ops).watchers := by
    unfold Repository.setState
    cases h : applyUpdater u ((createRepo s0).run ops).state with
    | none => exact absurd h hu
    | some part => rfl
  refine ⟨hsnd, ?_, fun r w => subscribe_idem r w⟩
  intro w hw
  rw [hsnd]
  exact List.count_eq_one_of_mem
    (run_nodup (createRepo s0) ops (by simp [createRepo])) hw

theorem setState_notifies_each_watcher_once_witness :
    (((createRepo []).run [Op.subscribe 5]).setState (StoreUpdater.value [])).2
      = ((createRepo []).run [Op.subscribe 5]).watchers :=
  (setState_notifies_each_watcher_once [] [Op.subscribe 5]
    (StoreUpdater.value []) (by simp [applyUpdater])).1

/-- C2: rendering a Consumer against a context snapshot whose mount flag is
false yields the thrown `ReferenceError` whose message names the store, and
against a mounted snapshot yields no error but the wrapped component with
the merged props and forwarded ref. -/
theorem consumer_render_error_or_props (name : String) (m : MapStoreToProps)
    (props : Props) (data : ContextState) :
    (data.mounted = false →
      componentRender name m props data = Except.error (notMountedMsg name)) ∧
    notMountedMsg name = "Store <" ++ name
        ++ "> provider not yet mounted on the parent or current component" ∧
    (data.mounted = true →
      componentRender name m props data =
        Except.ok
          { props := mergedProps m props data.store
            ref := getKey props "forwardRef" }) := by
  refine ⟨fun h => ?_, rfl, fun h => ?_⟩
  · simp [componentRender, h]
  · simp [componentRender, h]

theorem consumer_render_error_or_props_witness :
    componentRender "demo" defaultMapStoreToProps []
        { store := { id := 0, state := [] }, mounted := false }
      = Except.error (notMountedMsg "demo") ∧
    componentRender "demo" defaultMapStoreToProps []
        { store := { id := 0, state := [] }, mounted := true }
      = Except.ok
          { props := mergedProps defaultMapStoreToProps []
              { id := 0, state := [] }
            ref := getKey ([] : Props) "forwardRef" } :=
  ⟨(consumer_render_error_or_props "demo" defaultMapStoreToProps []
      { store := { id := 0, state := [] }, mounted := false }).1 rfl,
   (consumer_render_error_or_props "demo" defaultMapStoreToProps []
      { store := { id := 0, state := [] }, mounted := true }).2.2 rfl⟩

/-- C3: the handle's `state` accessor installed by `create` reads exactly
the initial state immediately after creation, before any `setState`; in
particular for the initial state `\x7b a: 1 \x7d`. -/
theorem create_initial_state_roundtrip (s : StoreState) :
    stateDescriptorOfCreate.get (createRepo s) = s ∧
    stateDescriptorOfCreate.get (createRepo [("a", 1)]) = [("a", 1)] :=
  ⟨rfl, rfl⟩

/-- C4: after removing a watcher via `unsubscribe` (or `unwatch`, which is
the same operation), no notification of any later operation sequence that
does not re-subscribe it ever invokes it; and removing an absent watcher
leaves the repository unchanged. -/
theorem unsubscribed_watcher_never_invoked (r : Repository) (w : Nat)
    (ops : List Op) (hops : ∀ op ∈ ops, op ≠ Op.subscribe w) :
    (∀ ns ∈ ((r.unsubscribe w).runTrace ops).2, w ∉ ns) ∧
    (∀ ns ∈ ((r.unwatch w).runTrace ops).2, w ∉ ns) ∧
    (w ∉ r.watchers → r.unsubscribe w = r) := by
  have h1 := runTrace_not_invoked ops (r.unsubscribe w) w
    (unsubscribe_not_mem r w) hops
  refine ⟨h1.1, ?_, unsubscribe_of_not_mem r w⟩
  rw [unwatch_eq_unsubscribe]
  exact h1.1

theorem unsubscribed_watcher_never_invoked_witness :
    (createRepo []).unsubscribe 0 = createRepo [] :=
  (unsubscribed_watcher_never_invoked (createRepo []) 0 [] (by simp)).2.2
    (by simp [createRepo])

/-- C5: with no explicit mapping, both the Provider and the Consumer render
paths hand the wrapped component a `store` prop that is reference-equal to
the store handle of the context snapshot. -/
theorem default_map_gives_store_prop (props : Props) (data : ContextState)
    (name : String) :
    getKey (providerRender defaultMapStoreToProps props data).child.props
        "store" = some (Value.vstore data.store) ∧
    getKey (mergedProps defaultMapStoreToProps props data.store) "store"
      = some (Value.vstore data.store) ∧
    (data.mounted = true →
      componentRender name defaultMapStoreToProps props data =
        Except.ok
          { props := mergedProps defaultMapStoreToProps props data.store
            ref := getKey props "forwardRef" }) := by
  have hm : getKey (mergedProps defaultMapStoreToProps props data.store)
      "store" = some (Value.vstore data.store) :=
    getKey_spreadMerge_single _ _ _
  refine ⟨hm, hm, fun h => ?_⟩
  simp [componentRender, h]

theorem default_map_gives_store_prop_witness :
    getKey (providerRender defaultMapStoreToProps []
        { store := { id := 1, state := [] }, mounted := true }).child.props
        "store" = some (Value.vstore { id := 1, state := [] }) ∧
    componentRender "demo" defaultMapStoreToProps []
        { store := { id := 1, state := [] }, mounted := true }
      = Except.ok
          { props := mergedProps defaultMapStoreToProps []
              { id := 1, state := [] }
            ref := getKey ([] : Props) "forwardRef" } :=
  ⟨(default_map_gives_store_prop []
      { store := { id := 1, state := [] }, mounted := true } "demo").1,
   (default_map_gives_store_prop []
      { store := { id := 1, state := [] }, mounted := true } "demo").2.2 rfl⟩

/-- C6: `watch`/`unwatch` are the very same operations on the very same
watcher registry as `subscribe`/`unsubscribe`: the functions are equal, a
callback registered through either name is notified identically and in the
same order, and either removal operation removes it. -/
theorem watch_subscribe_same_registry :
    Repository.watch = Repository.subscribe ∧
    Repository.unwatch = Repository.unsubscribe ∧
    (∀ (r : Repository) (w1 w2 : Nat) (u : StoreUpdater),
      (((r.watch w1).subscribe w2).setState u).2
        = (((r.subscribe w1).subscribe w2).setState u).2) ∧
    (∀ (r : Repository) (w : Nat),
      ((r.subscribe w).unwatch w) = ((r.watch w).unsubscribe w) ∧
      w ∉ ((r.subscribe w).unwatch w).watchers) := by
  refine ⟨rfl, rfl, fun r w1 w2 u => rfl, fun r w => ⟨rfl, ?_⟩⟩
  rw [unwatch_eq_unsubscribe]
  exact unsubscribe_not_mem _ w

/-- C7: in the scenario `create(\x7b count: 0 \x7d, \x7b inc() ... \x7d)`
with one subscribed watcher, calling the bound `inc` twice leaves
`state.count` equal to 2, and each of the two calls fires exactly one
watcher notification round invoking that watcher. -/
theorem inc_scenario_counts_and_notifications :
    getKey incTwice.1.state "count" = some 2 ∧
    incOnce.2 = [0] ∧ incTwice.2 = [0] := by
  refine ⟨?_, ?_, ?_⟩ <;> rfl

/-- C8 counterexample: an updaters entry colliding with the handle's
built-in `setState` property does not win — the built-in property
survives, because `create` installed it non-writable, so the claimed
last-writer-wins behavior fails at this input. -/
theorem mixin_collision_counterexample :
    getKey (mixinUpdaters baseHandleProps
        [("setState", UpdaterEntry.nonFunc (Value.vint 1))]) "setState"
      = some HandleProp.setStateMethod ∧
    HandleProp.setStateMethod ≠ HandleProp.rawValue (Value.vint 1) := by
  refine ⟨rfl, by decide⟩

/-- C8 amended: each own non-function entry of the updaters mapping is
copied onto the handle unchanged, and among the mapping's own writes to a
key not pre-installed by `create` the last writer wins; but a key colliding
with one of the handle's four pre-installed properties does not replace it
— those are non-writable, so the assignment is rejected and the built-in
survives. -/
theorem mixin_copy_and_collision_semantics
    (us : List (String × UpdaterEntry)) (k : String) (e : UpdaterEntry)
    (hfresh : getKey baseHandleProps k = none) :
    getKey (mixinUpdaters baseHandleProps (us ++ [(k, e)])) k
      = some (mixinEntry e) ∧
    (∀ v, mixinEntry (UpdaterEntry.nonFunc v) = HandleProp.rawValue v) ∧
    (∀ k2 p, getKey baseHandleProps k2 = some p →
      getKey (mixinUpdaters baseHandleProps us) k2 = some p) := by
  refine ⟨?_, fun v => rfl, fun k2 p hp => ?_⟩
  · refine mixin_last_writer us baseHandleProps k e ?_
    intro p hp
    rw [hfresh] at hp
    cases hp
  · exact getKey_mixin_not_writable us baseHandleProps k2 p hp
      (baseHandleProps_not_writable k2 p hp)

theorem mixin_copy_and_collision_semantics_witness :
    getKey (mixinUpdaters baseHandleProps
        ([("x", UpdaterEntry.nonFunc (Value.vstr "old"))]
          ++ [("x", UpdaterEntry.nonFunc (Value.vint 2))])) "x"
      = some (mixinEntry (UpdaterEntry.nonFunc (Value.vint 2))) :=
  (mixin_copy_and_collision_semantics
    [("x", UpdaterEntry.nonFunc (Value.vstr "old"))] "x"
    (UpdaterEntry.nonFunc (Value.vint 2)) (by decide)).1

/-- C9: when the updater delivered to a mounted Provider's watcher yields
the no-visual-change sentinel, the local UI-state update is skipped — the
instance is unchanged and no render is requested; otherwise a fresh
functional local-state update lands and one render is requested. -/
theorem provider_skips_sentinel_update (c : ProviderInstance)
    (u : ContextState → Option ContextState) :
    (u c.localState = none → storeUpdater c u = c) ∧
    (∀ s, u c.localState = some s →
      storeUpdater c u =
        { localState := s, renderRequests := c.renderRequests + 1 }) := by
  refine ⟨fun h => ?_, fun s h => ?_⟩
  · simp [storeUpdater, hostSetState, h]
  · simp [storeUpdater, hostSetState, h]

theorem provider_skips_sentinel_update_witness :
    storeUpdater
        { localState := { store := { id := 0, state := [] }, mounted := true }
          renderRequests := 0 }
        (fun _ => none)
      = { localState := { store := { id := 0, state := [] }, mounted := true }
          renderRequests := 0 } :=
  (provider_skips_sentinel_update
    { localState := { store := { id := 0, state := [] }, mounted := true }
      renderRequests := 0 }
    (fun _ => none)).1 rfl

/-- C10: the handle's `state` property is a live getter-only accessor into
the repository — after any operation sequence and after any completed
`setState` it reads the repository's current state, never a stale copy,
and assigning through the descriptor leaves the repository unchanged
because the descriptor has no setter. -/
theorem state_accessor_live_readonly (s0 : StoreState) (ops : List Op)
    (r : Repository) (v : StoreState) :
    stateDescriptorOfCreate.get ((createRepo s0).run ops)
      = ((createRepo s0).run ops).state ∧
    stateDescriptorOfCreate.get (r.setState (StoreUpdater.value v)).1
      = spreadMerge r.state v ∧
    assignThroughDescriptor stateDescriptorOfCreate r v = r :=
  ⟨rfl, rfl, rfl⟩

end RcFlexStore
